import Mathlib

/-!
# Typed Gremlin query helpers (`api/client/gremlin.go`)

A shallow embedding of the eight retrieval operations of `GremlinQueryHelper`
together with the Go values they manipulate (slices, string-keyed maps,
pointers, `error`), followed by theorems about them.

The collaborators the file calls but does not define (`g.Query`,
`json.Unmarshal` at each target type, `ConnectionInfo.Decode`,
`gclient.ErrNoResult`) are fields of `Env`; the record types of the other
packages are type parameters.
-/

set_option autoImplicit false

namespace Skydive

/-! ## Go values -/

/-- Go slice `[]α`: either the nil slice or a slice over the listed elements
(`mk []` is the empty, non-nil slice that `make([]α, 0)` and JSON `[]` give). -/
inductive Slice (α : Type) where
  | nil
  | mk (elems : List α)
  deriving DecidableEq, Repr

/-- Go pointer `*α`: `none` is the nil pointer, `some v` points at `v`. -/
abbrev Ptr (α : Type) := Option α

/-- Go `error` value over the non-nil errors `E`: `none` is `nil`. -/
abbrev GoError (E : Type) := Option E

/-- Go `map[string]V`: either the nil map or a table. The entries are listed in
the order a `range` over the map visits them on this run; the keys of a map the
runtime can hold are pairwise distinct. -/
inductive GoMap (V : Type) where
  | nil
  | mk (entries : List (String × V))
  deriving DecidableEq, Repr

namespace Slice

variable {α : Type}

/-- Elements of the slice, as `range` visits them. -/
def toList : Slice α → List α
  | nil => []
  | mk l => l

/-- Go `len(s)`. -/
def len (s : Slice α) : Nat := s.toList.length

/-- Go `s[i]`; `none` stands for the run-time panic "index out of range". -/
def index? (s : Slice α) (i : Nat) : Option α := s.toList.get? i

/-- Go `append(s, x)`. -/
def append (s : Slice α) (x : α) : Slice α := mk (s.toList ++ [x])

end Slice

namespace GoMap

variable {V : Type}

/-- Entries of the map in the order `range` visits them. -/
def entries : GoMap V → List (String × V)
  | nil => []
  | mk es => es

/-- Keys of the map in the order `range` visits them. -/
def keys (m : GoMap V) : List String := m.entries.map Prod.fst

/-- Well-formedness of a Go map: no key occurs twice. -/
def WF (m : GoMap V) : Prop := m.keys.Nodup

instance (m : GoMap V) : Decidable m.WF := inferInstanceAs (Decidable m.keys.Nodup)

/-- Lookup in an entry list. -/
def lookupEntries (k : String) : List (String × V) → Option V
  | [] => none
  | (k', v) :: rest => if k' = k then some v else lookupEntries k rest

/-- Two-valued map read `v, ok := m[k]`. -/
def get? (m : GoMap V) (k : String) : Option V := lookupEntries k m.entries

/-- Store into an entry list: overwrite the entry of `k`, or add one. -/
def setEntries (k : String) (v : V) : List (String × V) → List (String × V)
  | [] => [(k, v)]
  | (k', v') :: rest =>
    if k' = k then (k, v) :: rest else (k', v') :: setEntries k v rest

/-- Go `m[k] = v` on a non-nil map (the only stores in the file are on the map
made by `make`). -/
def set (m : GoMap V) (k : String) (v : V) : GoMap V := mk (setEntries k v m.entries)

end GoMap

/-- Go single-valued map read `m[k]` at a slice-valued map: the zero value (the
nil slice) when the key is absent. -/
def GoMap.index {α : Type} (m : GoMap (Slice α)) (k : String) : Slice α :=
  (m.get? k).getD Slice.nil

/-! ## Outcomes of a call -/

/-- Run-time panics the file can raise. -/
inductive Panic where
  | indexOutOfRange (index : Nat) (length : Nat)
  deriving DecidableEq, Repr

/-- How a call of a function with results `(α, error)` ends: it returns its two
results, or it panics. -/
inductive Outcome (α E : Type) where
  | returned (value : α) (err : GoError E)
  | panicked (p : Panic)
  deriving DecidableEq, Repr

/-- A call made to a collaborator. -/
inductive Call (Q B Obj : Type) where
  | query (q : Q)
  | unmarshal (data : B)
  | decode (obj : Obj)
  deriving DecidableEq, Repr

/-- A finished call of a retrieval operation: how it ended and the collaborator
calls it made, oldest first. -/
structure Run (α E Q B Obj : Type) where
  outcome : Outcome α E
  calls : List (Call Q B Obj)
  deriving DecidableEq, Repr

/-! ## Collaborators -/

/-- What the file takes from outside. `Q` is the query (`interface{}`), `B` the
payload (`[]byte`), `E` the non-nil errors, `Flow`, `IM`, `SM`, `FM`, `CI` the
records `flow.Flow`, `topology.InterfaceMetric`, `sflow.SFMetric`,
`flow.FlowMetric`, `socketinfo.ConnectionInfo`, and `Obj` the loosely typed
items (`interface{}`) of the socket payload.

Each `unmarshal…` field is `json.Unmarshal(data, &target)` at one target type:
it gives the value the target holds after the call (the target starts at the
zero value of its type) and the error returned. `Decode` is
`socket.Decode(obj)` on a fresh zero-valued `socket`: the record afterwards and
the error returned. -/
structure Env (Q B E Flow IM SM FM CI Obj : Type) where
  Query : Q → B × GoError E
  ErrNoResult : E
  unmarshalFlows : B → Slice (Ptr Flow) × GoError E
  unmarshalInterfaceMetrics : B → Slice (GoMap (Slice (Ptr IM))) × GoError E
  unmarshalSFlowMetrics : B → Slice (GoMap (Slice (Ptr SM))) × GoError E
  unmarshalFlowMetrics : B → Slice (GoMap (Slice (Ptr FM))) × GoError E
  unmarshalFlowMetric : B → FM × GoError E
  unmarshalInterfaceMetric : B → IM × GoError E
  unmarshalSFlowMetric : B → SM × GoError E
  unmarshalSockets : B → Slice (GoMap (Slice Obj)) × GoError E
  Decode : Obj → CI × GoError E

section Operations

variable {Q B E Flow IM SM FM CI Obj : Type}

/-! ## The retrieval operations -/

/-- `GetFlows` (gremlin.go:40-52). -/
def GetFlows (g : Env Q B E Flow IM SM FM CI Obj) (query : Q) :
    Run (Slice (Ptr Flow)) E Q B Obj :=
  match g.Query query with
  | (_, some err) => ⟨.returned .nil (some err), [.query query]⟩
  | (data, none) =>
    match g.unmarshalFlows data with
    | (_, some err) => ⟨.returned .nil (some err), [.query query, .unmarshal data]⟩
    | (flows, none) => ⟨.returned flows none, [.query query, .unmarshal data]⟩

/-- `GetInterfaceMetrics` (gremlin.go:55-71). -/
def GetInterfaceMetrics (g : Env Q B E Flow IM SM FM CI Obj) (query : Q) :
    Run (GoMap (Slice (Ptr IM))) E Q B Obj :=
  match g.Query query with
  | (_, some err) => ⟨.returned .nil (some err), [.query query]⟩
  | (data, none) =>
    match g.unmarshalInterfaceMetrics data with
    | (_, some err) => ⟨.returned .nil (some err), [.query query, .unmarshal data]⟩
    | (result, none) =>
      if result.len = 0 then
        ⟨.returned .nil none, [.query query, .unmarshal data]⟩
      else
        match result.index? 0 with
        | some first => ⟨.returned first none, [.query query, .unmarshal data]⟩
        | none => ⟨.panicked (.indexOutOfRange 0 result.len), [.query query, .unmarshal data]⟩

/-- `GetSFlowMetrics` (gremlin.go:74-90). -/
def GetSFlowMetrics (g : Env Q B E Flow IM SM FM CI Obj) (query : Q) :
    Run (GoMap (Slice (Ptr SM))) E Q B Obj :=
  match g.Query query with
  | (_, some err) => ⟨.returned .nil (some err), [.query query]⟩
  | (data, none) =>
    match g.unmarshalSFlowMetrics data with
    | (_, some err) => ⟨.returned .nil (some err), [.query query, .unmarshal data]⟩
    | (result, none) =>
      if result.len = 0 then
        ⟨.returned .nil none, [.query query, .unmarshal data]⟩
      else
        match result.index? 0 with
        | some first => ⟨.returned first none, [.query query, .unmarshal data]⟩
        | none => ⟨.panicked (.indexOutOfRange 0 result.len), [.query query, .unmarshal data]⟩

/-- `GetFlowMetrics` (gremlin.go:93-109). -/
def GetFlowMetrics (g : Env Q B E Flow IM SM FM CI Obj) (query : Q) :
    Run (GoMap (Slice (Ptr FM))) E Q B Obj :=
  match g.Query query with
  | (_, some err) => ⟨.returned .nil (some err), [.query query]⟩
  | (data, none) =>
    match g.unmarshalFlowMetrics data with
    | (_, some err) => ⟨.returned .nil (some err), [.query query, .unmarshal data]⟩
    | (result, none) =>
      if result.len = 0 then
        ⟨.returned .nil (some g.ErrNoResult), [.query query, .unmarshal data]⟩
      else
        match result.index? 0 with
        | some first => ⟨.returned first none, [.query query, .unmarshal data]⟩
        | none => ⟨.panicked (.indexOutOfRange 0 result.len), [.query query, .unmarshal data]⟩

/-- `GetFlowMetric` (gremlin.go:112-124). -/
def GetFlowMetric (g : Env Q B E Flow IM SM FM CI Obj) (query : Q) :
    Run (Ptr FM) E Q B Obj :=
  match g.Query query with
  | (_, some err) => ⟨.returned none (some err), [.query query]⟩
  | (data, none) =>
    match g.unmarshalFlowMetric data with
    | (_, some err) => ⟨.returned none (some err), [.query query, .unmarshal data]⟩
    | (result, none) => ⟨.returned (some result) none, [.query query, .unmarshal data]⟩

/-- `GetInterfaceMetric` (gremlin.go:127-139). -/
def GetInterfaceMetric (g : Env Q B E Flow IM SM FM CI Obj) (query : Q) :
    Run (Ptr IM) E Q B Obj :=
  match g.Query query with
  | (_, some err) => ⟨.returned none (some err), [.query query]⟩
  | (data, none) =>
    match g.unmarshalInterfaceMetric data with
    | (_, some err) => ⟨.returned none (some err), [.query query, .unmarshal data]⟩
    | (result, none) => ⟨.returned (some result) none, [.query query, .unmarshal data]⟩

/-- `GetSFlowMetric` (gremlin.go:142-154). -/
def GetSFlowMetric (g : Env Q B E Flow IM SM FM CI Obj) (query : Q) :
    Run (Ptr SM) E Q B Obj :=
  match g.Query query with
  | (_, some err) => ⟨.returned none (some err), [.query query]⟩
  | (data, none) =>
    match g.unmarshalSFlowMetric data with
    | (_, some err) => ⟨.returned none (some err), [.query query, .unmarshal data]⟩
    | (result, none) => ⟨.returned (some result) none, [.query query, .unmarshal data]⟩

/-- The variables of `GetSockets` that its loops update: the named results
`sockets` and `err`, and the collaborator calls made so far. -/
structure SocketsState (E CI Q B Obj : Type) where
  sockets : GoMap (Slice (Ptr CI))
  err : GoError E
  calls : List (Call Q B Obj)

/-- One round of the inner loop of `GetSockets` (gremlin.go:174-177): decode
`obj` into a fresh `socket`, assign the error to the named result `err`, and
append `&socket` to `sockets[id]` when that error is nil. -/
def decodeItem (g : Env Q B E Flow IM SM FM CI Obj) (id : String)
    (st : SocketsState E CI Q B Obj) (obj : Obj) : SocketsState E CI Q B Obj :=
  match g.Decode obj with
  | (socket, none) =>
    { sockets := st.sockets.set id ((st.sockets.index id).append (some socket))
      err := none
      calls := st.calls ++ [.decode obj] }
  | (_, some e) =>
    { sockets := st.sockets
      err := some e
      calls := st.calls ++ [.decode obj] }

/-- One round of the outer loop of `GetSockets` (gremlin.go:171-178):
`sockets[id]` becomes an empty slice, then every item of `objs` is decoded in
turn. -/
def visitKey (g : Env Q B E Flow IM SM FM CI Obj)
    (st : SocketsState E CI Q B Obj) (entry : String × Slice Obj) :
    SocketsState E CI Q B Obj :=
  entry.2.toList.foldl (decodeItem g entry.1)
    { st with sockets := st.sockets.set entry.1 (Slice.mk []) }

/-- The loops of `GetSockets` over the first mapping (gremlin.go:170-179),
started with the named result `err` at `err0` and the calls made so far. -/
def socketsLoop (g : Env Q B E Flow IM SM FM CI Obj) (first : GoMap (Slice Obj))
    (err0 : GoError E) (calls0 : List (Call Q B Obj)) : SocketsState E CI Q B Obj :=
  first.entries.foldl (visitKey g) { sockets := GoMap.mk [], err := err0, calls := calls0 }

/-- `GetSockets` (gremlin.go:157-182). -/
def GetSockets (g : Env Q B E Flow IM SM FM CI Obj) (query : Q) :
    Run (GoMap (Slice (Ptr CI))) E Q B Obj :=
  match g.Query query with
  | (_, some err) => ⟨.returned .nil (some err), [.query query]⟩
  | (data, none) =>
    match g.unmarshalSockets data with
    | (_, some err) => ⟨.returned .nil (some err), [.query query, .unmarshal data]⟩
    | (maps, none) =>
      match maps.index? 0 with
      | none => ⟨.panicked (.indexOutOfRange 0 maps.len), [.query query, .unmarshal data]⟩
      | some first =>
        let st := socketsLoop g first none [.query query, .unmarshal data]
        ⟨.returned st.sockets st.err, st.calls⟩

end Operations

/-! ## Vocabulary for the loops of `GetSockets` -/

section Vocabulary

variable {Q B E Flow IM SM FM CI Obj : Type}

/-- The pointers `GetSockets` keeps for a run of items: the items whose `Decode`
returns a nil error, in their order, each as the pointer to its decoded
record. -/
def keptItems (g : Env Q B E Flow IM SM FM CI Obj) (objs : List Obj) : List (Ptr CI) :=
  (objs.filter (fun obj => (g.Decode obj).2.isNone)).map (fun obj => some (g.Decode obj).1)

/-- The value of the named result `err` after `Decode` ran on each of `objs` in
turn, starting from `err0`: the error of the last call. -/
def lastDecodeErr (g : Env Q B E Flow IM SM FM CI Obj) (err0 : GoError E) (objs : List Obj) :
    GoError E :=
  objs.foldl (fun _ obj => (g.Decode obj).2) err0

/-- All items of an entry list, in the order the loops of `GetSockets` decode
them. -/
def allItems (es : List (String × Slice Obj)) : List Obj :=
  es.flatMap (fun entry => entry.2.toList)

end Vocabulary

/-! ## Sample collaborators

A small concrete environment used to evaluate the operations. Queries, payloads
and records are numbers. Query `0` fails in transport; any other query `n`
succeeds with payload `n`. The payloads stand for these JSON texts:

* `1`: malformed JSON (every `json.Unmarshal` fails);
* `2`: `[]`;
* `3`: a one-element outer array; for the socket shape `[{"a": [1, 100, 2]}]`,
  for the metric shapes `[{"A": [7, 8]}]`, for the flow list `[4, 5, 6]`;
* `4`: a two-element outer array `[{"a": [1]}, {"b": [2]}]` (as a flow list,
  two objects with no known field: two zero records `0`);
* `5`: `[{"a": [1, 100]}]`;
* `6`: `[{"a": [100], "b": [1]}]`, the run ranging over key `a` first;
* `7`: the same text as `6`, the run ranging over key `b` first;
* `8`: `null` (a slice target is left nil and a record target at its zero
  value `0`, with no error);
* `9`: a single JSON object, decoding to the record `9`.

Each sample `json.Unmarshal` rejects the payloads that are not listed for its
target.

`Decode` accepts the items below `100` and rejects the others. -/

/-- Errors of the sample collaborators. -/
inductive SampleErr where
  | transport
  | badJSON
  | badItem
  | noResult
  deriving DecidableEq, Repr

/-- Sample `json.Unmarshal` at a metric-mapping target. -/
def sampleUnmarshalMetrics (data : Nat) : Slice (GoMap (Slice (Ptr Nat))) × GoError SampleErr :=
  if data = 2 then (Slice.mk [], none)
  else if data = 3 then (Slice.mk [GoMap.mk [("A", Slice.mk [some 7, some 8])]], none)
  else if data = 4 then
    (Slice.mk [GoMap.mk [("a", Slice.mk [some 1])], GoMap.mk [("b", Slice.mk [some 2])]], none)
  else if data = 8 then (Slice.nil, none)
  else (Slice.nil, some SampleErr.badJSON)

/-- Sample `json.Unmarshal` at the socket target `[]map[string][]interface{}`. -/
def sampleUnmarshalSockets (data : Nat) : Slice (GoMap (Slice Nat)) × GoError SampleErr :=
  if data = 2 then (Slice.mk [], none)
  else if data = 3 then (Slice.mk [GoMap.mk [("a", Slice.mk [1, 100, 2])]], none)
  else if data = 4 then
    (Slice.mk [GoMap.mk [("a", Slice.mk [1])], GoMap.mk [("b", Slice.mk [2])]], none)
  else if data = 5 then (Slice.mk [GoMap.mk [("a", Slice.mk [1, 100])]], none)
  else if data = 6 then
    (Slice.mk [GoMap.mk [("a", Slice.mk [100]), ("b", Slice.mk [1])]], none)
  else if data = 7 then
    (Slice.mk [GoMap.mk [("b", Slice.mk [1]), ("a", Slice.mk [100])]], none)
  else if data = 8 then (Slice.nil, none)
  else (Slice.nil, some SampleErr.badJSON)

/-- Sample `json.Unmarshal` at a single-record target. -/
def sampleUnmarshalRecord (data : Nat) : Nat × GoError SampleErr :=
  if data = 9 then (9, none)
  else if data = 8 then (0, none)
  else (0, some SampleErr.badJSON)

/-- The sample environment. -/
def sampleEnv : Env Nat Nat SampleErr Nat Nat Nat Nat Nat Nat where
  Query := fun q => if q = 0 then (0, some SampleErr.transport) else (q, none)
  ErrNoResult := SampleErr.noResult
  unmarshalFlows := fun data =>
    if data = 2 then (Slice.mk [], none)
    else if data = 3 then (Slice.mk [some 4, some 5, some 6], none)
    else if data = 4 then (Slice.mk [some 0, some 0], none)
    else if data = 8 then (Slice.nil, none)
    else (Slice.nil, some SampleErr.badJSON)
  unmarshalInterfaceMetrics := sampleUnmarshalMetrics
  unmarshalSFlowMetrics := sampleUnmarshalMetrics
  unmarshalFlowMetrics := sampleUnmarshalMetrics
  unmarshalFlowMetric := sampleUnmarshalRecord
  unmarshalInterfaceMetric := sampleUnmarshalRecord
  unmarshalSFlowMetric := sampleUnmarshalRecord
  unmarshalSockets := sampleUnmarshalSockets
  Decode := fun obj => if obj < 100 then (obj, none) else (0, some SampleErr.badItem)

/-! ## Lemmas on entry lists -/

section MapLemmas

variable {V : Type}

/-- Reading a key right after storing it gives the stored value. -/
theorem GoMap.lookupEntries_setEntries_same (k : String) (v : V) (es : List (String × V)) :
    GoMap.lookupEntries k (GoMap.setEntries k v es) = some v := by
  induction es with
  | nil => simp [GoMap.setEntries, GoMap.lookupEntries]
  | cons hd tl ih =>
    obtain ⟨k', v'⟩ := hd
    by_cases h : k' = k
    · simp [GoMap.setEntries, GoMap.lookupEntries, h]
    · simp [GoMap.setEntries, GoMap.lookupEntries, h, ih]

/-- A second store at the same key overwrites the first. -/
theorem GoMap.setEntries_setEntries_same (k : String) (v w : V) (es : List (String × V)) :
    GoMap.setEntries k w (GoMap.setEntries k v es) = GoMap.setEntries k w es := by
  induction es with
  | nil => simp [GoMap.setEntries]
  | cons hd tl ih =>
    obtain ⟨k', v'⟩ := hd
    by_cases h : k' = k
    · simp [GoMap.setEntries, h]
    · simp [GoMap.setEntries, h, ih]

/-- Storing at a key the list does not hold adds the entry at the end. -/
theorem GoMap.setEntries_of_not_mem (k : String) (v : V) (es : List (String × V))
    (h : k ∉ es.map Prod.fst) : GoMap.setEntries k v es = es ++ [(k, v)] := by
  induction es with
  | nil => simp [GoMap.setEntries]
  | cons hd tl ih =>
    obtain ⟨k', v'⟩ := hd
    have hne : ¬ k' = k := by
      intro hk
      apply h
      simp [hk]
    have htl : k ∉ tl.map Prod.fst := by
      intro hk
      apply h
      simp only [List.map_cons, List.mem_cons]
      exact Or.inr hk
    simp [GoMap.setEntries, hne, ih htl]

/-- Lookup in a concatenation tries the left list first. -/
theorem GoMap.lookupEntries_append (k : String) (es fs : List (String × V)) :
    GoMap.lookupEntries k (es ++ fs) =
      (GoMap.lookupEntries k es).orElse (fun _ => GoMap.lookupEntries k fs) := by
  induction es with
  | nil => simp [GoMap.lookupEntries]
  | cons hd tl ih =>
    obtain ⟨k', v'⟩ := hd
    by_cases h : k' = k
    · simp [GoMap.lookupEntries, h]
    · simp [GoMap.lookupEntries, h, ih]

/-- Lookup commutes with mapping a function over the values. -/
theorem GoMap.lookupEntries_map {W : Type} (f : V → W) (k : String) (es : List (String × V)) :
    GoMap.lookupEntries k (es.map (fun kv => (kv.1, f kv.2))) =
      (GoMap.lookupEntries k es).map f := by
  induction es with
  | nil => simp [GoMap.lookupEntries]
  | cons hd tl ih =>
    obtain ⟨k', v'⟩ := hd
    by_cases h : k' = k
    · simp [GoMap.lookupEntries, h]
    · simp [GoMap.lookupEntries, h, ih]

end MapLemmas

/-- Lookup does not depend on the order of an entry list with distinct keys. -/
theorem GoMap.lookupEntries_perm {V : Type} (k : String) {es fs : List (String × V)}
    (hperm : es.Perm fs) (hnd : (es.map Prod.fst).Nodup) :
    GoMap.lookupEntries k es = GoMap.lookupEntries k fs := by
  induction hperm with
  | nil => rfl
  | cons x _ ih =>
    obtain ⟨k', v'⟩ := x
    rw [List.map_cons, List.nodup_cons] at hnd
    by_cases h : k' = k
    · simp [GoMap.lookupEntries, h]
    · simp [GoMap.lookupEntries, h, ih hnd.2]
  | swap x y l =>
    obtain ⟨kx, vx⟩ := x
    obtain ⟨ky, vy⟩ := y
    have hne : ky ≠ kx := by
      intro hc
      simp [hc] at hnd
    by_cases hx : kx = k
    · have hy : ¬ ky = k := fun hc => hne (hc.trans hx.symm)
      simp [GoMap.lookupEntries, hx, hy]
    · simp [GoMap.lookupEntries, hx]
  | trans h₁ _ ih₁ ih₂ =>
    have hnd2 := (List.Perm.nodup_iff (List.Perm.map Prod.fst h₁)).mp hnd
    rw [ih₁ hnd, ih₂ hnd2]

/-- The error of the last `Decode` call is the error at the last item. -/
theorem lastDecodeErr_eq_getLast {Q B E Flow IM SM FM CI Obj : Type}
    (g : Env Q B E Flow IM SM FM CI Obj) (err0 : GoError E) (objs : List Obj) :
    lastDecodeErr g err0 objs =
      match objs.getLast? with
      | none => err0
      | some obj => (g.Decode obj).2 := by
  rcases List.eq_nil_or_concat objs with h | ⟨l, x, h⟩
  · subst h
    rfl
  · subst h
    simp [lastDecodeErr, List.foldl_append]


/-! ## The loops of `GetSockets` -/

section SocketLemmas

variable {Q B E Flow IM SM FM CI Obj : Type}

/-- An item whose `Decode` succeeds is kept. -/
theorem keptItems_cons_ok (g : Env Q B E Flow IM SM FM CI Obj) (obj : Obj) (objs : List Obj)
    (socket : CI) (h : g.Decode obj = (socket, none)) :
    keptItems g (obj :: objs) = some socket :: keptItems g objs := by
  simp [keptItems, h]

/-- An item whose `Decode` fails is dropped. -/
theorem keptItems_cons_err (g : Env Q B E Flow IM SM FM CI Obj) (obj : Obj) (objs : List Obj)
    (socket : CI) (e : E) (h : g.Decode obj = (socket, some e)) :
    keptItems g (obj :: objs) = keptItems g objs := by
  simp [keptItems, h]

/-- The inner loop: with `sockets[id]` holding `pre`, decoding `objs` leaves
`sockets[id]` at `pre` followed by the kept items, `err` at the last decode
error, and one `Decode` call per item. -/
theorem foldl_decodeItem (g : Env Q B E Flow IM SM FM CI Obj) (id : String)
    (base : List (String × Slice (Ptr CI))) (objs : List Obj) :
    ∀ (pre : List (Ptr CI)) (err0 : GoError E) (calls0 : List (Call Q B Obj)),
    objs.foldl (decodeItem g id)
        { sockets := GoMap.mk (GoMap.setEntries id (Slice.mk pre) base),
          err := err0, calls := calls0 } =
      { sockets := GoMap.mk (GoMap.setEntries id (Slice.mk (pre ++ keptItems g objs)) base),
        err := lastDecodeErr g err0 objs,
        calls := calls0 ++ objs.map Call.decode } := by
  induction objs with
  | nil =>
    intro pre err0 calls0
    simp [keptItems, lastDecodeErr]
  | cons obj rest ih =>
    intro pre err0 calls0
    rw [List.foldl_cons]
    rcases hd : g.Decode obj with ⟨socket, _ | e⟩
    · have hstep : decodeItem g id
          { sockets := GoMap.mk (GoMap.setEntries id (Slice.mk pre) base),
            err := err0, calls := calls0 } obj =
          { sockets := GoMap.mk (GoMap.setEntries id (Slice.mk (pre ++ [some socket])) base),
            err := none, calls := calls0 ++ [Call.decode obj] } := by
        simp [decodeItem, hd, GoMap.set, GoMap.index, GoMap.get?, GoMap.entries,
          GoMap.lookupEntries_setEntries_same, GoMap.setEntries_setEntries_same,
          Slice.append, Slice.toList]
      rw [hstep, ih, keptItems_cons_ok g obj rest socket hd]
      simp [lastDecodeErr, hd]
    · have hstep : decodeItem g id
          { sockets := GoMap.mk (GoMap.setEntries id (Slice.mk pre) base),
            err := err0, calls := calls0 } obj =
          { sockets := GoMap.mk (GoMap.setEntries id (Slice.mk pre) base),
            err := some e, calls := calls0 ++ [Call.decode obj] } := by
        simp [decodeItem, hd]
      rw [hstep, ih, keptItems_cons_err g obj rest socket e hd]
      simp [lastDecodeErr, hd]

/-- One round of the outer loop on a key the result does not hold yet. -/
theorem visitKey_fresh (g : Env Q B E Flow IM SM FM CI Obj)
    (acc : List (String × Slice (Ptr CI))) (err0 : GoError E) (calls0 : List (Call Q B Obj))
    (entry : String × Slice Obj) (hfresh : entry.1 ∉ acc.map Prod.fst) :
    visitKey g { sockets := GoMap.mk acc, err := err0, calls := calls0 } entry =
      { sockets := GoMap.mk (acc ++ [(entry.1, Slice.mk (keptItems g entry.2.toList))]),
        err := lastDecodeErr g err0 entry.2.toList,
        calls := calls0 ++ entry.2.toList.map Call.decode } := by
  have h := foldl_decodeItem g entry.1 acc entry.2.toList [] err0 calls0
  simp only [List.nil_append] at h
  simp only [visitKey, GoMap.set, GoMap.entries]
  rw [h, GoMap.setEntries_of_not_mem _ _ _ hfresh]

/-- The outer loop over entries with pairwise distinct keys, none of them in the
result yet. -/
theorem foldl_visitKey (g : Env Q B E Flow IM SM FM CI Obj) (es : List (String × Slice Obj)) :
    ∀ (acc : List (String × Slice (Ptr CI))) (err0 : GoError E) (calls0 : List (Call Q B Obj)),
    (es.map Prod.fst).Nodup → (∀ k, k ∈ es.map Prod.fst → k ∉ acc.map Prod.fst) →
    es.foldl (visitKey g) { sockets := GoMap.mk acc, err := err0, calls := calls0 } =
      { sockets := GoMap.mk
          (acc ++ es.map (fun entry => (entry.1, Slice.mk (keptItems g entry.2.toList)))),
        err := lastDecodeErr g err0 (allItems es),
        calls := calls0 ++ (allItems es).map Call.decode } := by
  induction es with
  | nil =>
    intro acc err0 calls0 _ _
    simp [allItems, lastDecodeErr]
  | cons entry rest ih =>
    intro acc err0 calls0 hnd hdisj
    rw [List.map_cons, List.nodup_cons] at hnd
    rw [List.foldl_cons, visitKey_fresh g acc err0 calls0 entry
      (hdisj entry.1 (by simp))]
    rw [ih _ _ _ hnd.2]
    · simp [allItems, lastDecodeErr, List.foldl_append]
    · intro k hk
      simp only [List.map_append, List.map_cons, List.map_nil, List.mem_append,
        List.mem_singleton, not_or]
      refine ⟨hdisj k (by simp only [List.map_cons, List.mem_cons]; exact Or.inr hk), ?_⟩
      intro hke
      subst hke
      exact hnd.1 hk

/-- The loops of `GetSockets` over a well-formed first mapping. -/
theorem socketsLoop_eq (g : Env Q B E Flow IM SM FM CI Obj) (first : GoMap (Slice Obj))
    (hwf : first.WF) (err0 : GoError E) (calls0 : List (Call Q B Obj)) :
    socketsLoop g first err0 calls0 =
      { sockets := GoMap.mk
          (first.entries.map (fun entry => (entry.1, Slice.mk (keptItems g entry.2.toList)))),
        err := lastDecodeErr g err0 (allItems first.entries),
        calls := calls0 ++ (allItems first.entries).map Call.decode } := by
  have h := foldl_visitKey g first.entries [] err0 calls0 hwf (by simp)
  simpa [socketsLoop] using h

end SocketLemmas

/-! ## Theorems -/

section Theorems

variable {Q B E Flow IM SM FM CI Obj : Type}

/-- C1: when the Query Executor returns an error `e`, each of the eight
retrieval operations returns the nil value together with exactly `e`, and the
only collaborator call it made is the query itself (no `json.Unmarshal`, no
`Decode`). -/
theorem query_error_returned_verbatim (g : Env Q B E Flow IM SM FM CI Obj) (query : Q)
    (data : B) (e : E) (h : g.Query query = (data, some e)) :
    GetFlows g query = ⟨.returned .nil (some e), [.query query]⟩ ∧
    GetInterfaceMetrics g query = ⟨.returned .nil (some e), [.query query]⟩ ∧
    GetSFlowMetrics g query = ⟨.returned .nil (some e), [.query query]⟩ ∧
    GetFlowMetrics g query = ⟨.returned .nil (some e), [.query query]⟩ ∧
    GetFlowMetric g query = ⟨.returned none (some e), [.query query]⟩ ∧
    GetInterfaceMetric g query = ⟨.returned none (some e), [.query query]⟩ ∧
    GetSFlowMetric g query = ⟨.returned none (some e), [.query query]⟩ ∧
    GetSockets g query = ⟨.returned .nil (some e), [.query query]⟩ := by
  refine ⟨?_, ?_, ?_, ?_, ?_, ?_, ?_, ?_⟩
  · simp only [GetFlows, h]
  · simp only [GetInterfaceMetrics, h]
  · simp only [GetSFlowMetrics, h]
  · simp only [GetFlowMetrics, h]
  · simp only [GetFlowMetric, h]
  · simp only [GetInterfaceMetric, h]
  · simp only [GetSFlowMetric, h]
  · simp only [GetSockets, h]

/-- C1 at the sample environment: query `0` fails in transport, and all eight
operations hand back that very error with a nil value, having only queried. -/
theorem query_error_returned_verbatim_witness :
    sampleEnv.Query 0 = (0, some SampleErr.transport) ∧
    (GetFlows sampleEnv 0 = ⟨.returned .nil (some SampleErr.transport), [.query 0]⟩ ∧
    GetInterfaceMetrics sampleEnv 0 = ⟨.returned .nil (some SampleErr.transport), [.query 0]⟩ ∧
    GetSFlowMetrics sampleEnv 0 = ⟨.returned .nil (some SampleErr.transport), [.query 0]⟩ ∧
    GetFlowMetrics sampleEnv 0 = ⟨.returned .nil (some SampleErr.transport), [.query 0]⟩ ∧
    GetFlowMetric sampleEnv 0 = ⟨.returned none (some SampleErr.transport), [.query 0]⟩ ∧
    GetInterfaceMetric sampleEnv 0 = ⟨.returned none (some SampleErr.transport), [.query 0]⟩ ∧
    GetSFlowMetric sampleEnv 0 = ⟨.returned none (some SampleErr.transport), [.query 0]⟩ ∧
    GetSockets sampleEnv 0 = ⟨.returned .nil (some SampleErr.transport), [.query 0]⟩) :=
  ⟨rfl, query_error_returned_verbatim sampleEnv 0 0 SampleErr.transport rfl⟩

/-- C2: when the query succeeds and the payload decodes without error to an
outer array of length zero, `GetFlowMetrics` returns the nil mapping together
with `ErrNoResult`, which is not the nil error. -/
theorem GetFlowMetrics_empty_is_ErrNoResult (g : Env Q B E Flow IM SM FM CI Obj) (query : Q)
    (data : B) (result : Slice (GoMap (Slice (Ptr FM))))
    (hq : g.Query query = (data, none))
    (hu : g.unmarshalFlowMetrics data = (result, none))
    (hlen : result.len = 0) :
    (GetFlowMetrics g query).outcome = .returned .nil (some g.ErrNoResult) ∧
    (GetFlowMetrics g query).outcome ≠ .returned .nil none := by
  have h : (GetFlowMetrics g query).outcome = .returned .nil (some g.ErrNoResult) := by
    simp only [GetFlowMetrics, hq, hu, hlen, if_true]
  refine ⟨h, ?_⟩
  rw [h]
  intro hc
  cases hc

/-- C2 at the sample environment: payload `2` is `[]`; `GetFlowMetrics` gives
the no-result error where `GetInterfaceMetrics` gives no error. -/
theorem GetFlowMetrics_empty_is_ErrNoResult_witness :
    sampleEnv.unmarshalFlowMetrics 2 = (Slice.mk [], none) ∧
    (GetFlowMetrics sampleEnv 2).outcome = .returned .nil (some SampleErr.noResult) ∧
    (GetInterfaceMetrics sampleEnv 2).outcome = .returned .nil none :=
  ⟨rfl, (GetFlowMetrics_empty_is_ErrNoResult sampleEnv 2 2 (Slice.mk []) rfl rfl rfl).1, rfl⟩

/-- C3: when the query succeeds and the payload decodes without error to an
outer array `result` of mappings, `GetInterfaceMetrics` and `GetSFlowMetrics`
return a nil error, with the nil mapping when `result` has length zero and with
the first element of `result` otherwise. -/
theorem metrics_first_mapping_or_nil (g : Env Q B E Flow IM SM FM CI Obj) (query : Q)
    (data : B) (hq : g.Query query = (data, none)) :
    (∀ result, g.unmarshalInterfaceMetrics data = (result, none) →
      (result.len = 0 → (GetInterfaceMetrics g query).outcome = .returned .nil none) ∧
      (∀ first rest, result = Slice.mk (first :: rest) →
        (GetInterfaceMetrics g query).outcome = .returned first none)) ∧
    (∀ result, g.unmarshalSFlowMetrics data = (result, none) →
      (result.len = 0 → (GetSFlowMetrics g query).outcome = .returned .nil none) ∧
      (∀ first rest, result = Slice.mk (first :: rest) →
        (GetSFlowMetrics g query).outcome = .returned first none)) := by
  refine ⟨?_, ?_⟩
  · intro result hu
    refine ⟨?_, ?_⟩
    · intro hlen
      simp only [GetInterfaceMetrics, hq, hu, hlen, if_true]
    · intro first rest hr
      subst hr
      simp [GetInterfaceMetrics, hq, hu, Slice.len, Slice.index?, Slice.toList]
  · intro result hu
    refine ⟨?_, ?_⟩
    · intro hlen
      simp only [GetSFlowMetrics, hq, hu, hlen, if_true]
    · intro first rest hr
      subst hr
      simp [GetSFlowMetrics, hq, hu, Slice.len, Slice.index?, Slice.toList]

/-- C3 at the sample environment: payload `3` is `[{"A": [7, 8]}]` and yields
the mapping `{"A": [7, 8]}`; payload `2` is `[]` and yields the nil mapping. -/
theorem metrics_first_mapping_or_nil_witness :
    (GetInterfaceMetrics sampleEnv 3).outcome =
      .returned (GoMap.mk [("A", Slice.mk [some 7, some 8])]) none ∧
    (GetSFlowMetrics sampleEnv 3).outcome =
      .returned (GoMap.mk [("A", Slice.mk [some 7, some 8])]) none ∧
    (GetInterfaceMetrics sampleEnv 2).outcome = .returned .nil none ∧
    (GetSFlowMetrics sampleEnv 2).outcome = .returned .nil none :=
  ⟨((metrics_first_mapping_or_nil sampleEnv 3 3 rfl).1 _ rfl).2 _ [] rfl,
   ((metrics_first_mapping_or_nil sampleEnv 3 3 rfl).2 _ rfl).2 _ [] rfl,
   ((metrics_first_mapping_or_nil sampleEnv 2 2 rfl).1 _ rfl).1 rfl,
   ((metrics_first_mapping_or_nil sampleEnv 2 2 rfl).2 _ rfl).1 rfl⟩

/-- C7: when the query succeeds and `json.Unmarshal` of the payload at the
target type of the operation returns an error `e`, each of the eight retrieval
operations returns the nil value together with `e`, a non-nil error. -/
theorem decode_error_returned_with_nil (g : Env Q B E Flow IM SM FM CI Obj) (query : Q)
    (data : B) (hq : g.Query query = (data, none)) :
    (∀ v e, g.unmarshalFlows data = (v, some e) →
      (GetFlows g query).outcome = .returned .nil (some e)) ∧
    (∀ v e, g.unmarshalInterfaceMetrics data = (v, some e) →
      (GetInterfaceMetrics g query).outcome = .returned .nil (some e)) ∧
    (∀ v e, g.unmarshalSFlowMetrics data = (v, some e) →
      (GetSFlowMetrics g query).outcome = .returned .nil (some e)) ∧
    (∀ v e, g.unmarshalFlowMetrics data = (v, some e) →
      (GetFlowMetrics g query).outcome = .returned .nil (some e)) ∧
    (∀ v e, g.unmarshalFlowMetric data = (v, some e) →
      (GetFlowMetric g query).outcome = .returned none (some e)) ∧
    (∀ v e, g.unmarshalInterfaceMetric data = (v, some e) →
      (GetInterfaceMetric g query).outcome = .returned none (some e)) ∧
    (∀ v e, g.unmarshalSFlowMetric data = (v, some e) →
      (GetSFlowMetric g query).outcome = .returned none (some e)) ∧
    (∀ v e, g.unmarshalSockets data = (v, some e) →
      (GetSockets g query).outcome = .returned .nil (some e)) := by
  refine ⟨?_, ?_, ?_, ?_, ?_, ?_, ?_, ?_⟩ <;> intro v e hu
  · simp only [GetFlows, hq, hu]
  · simp only [GetInterfaceMetrics, hq, hu]
  · simp only [GetSFlowMetrics, hq, hu]
  · simp only [GetFlowMetrics, hq, hu]
  · simp only [GetFlowMetric, hq, hu]
  · simp only [GetInterfaceMetric, hq, hu]
  · simp only [GetSFlowMetric, hq, hu]
  · simp only [GetSockets, hq, hu]

/-- C7 at the sample environment: payload `1` is malformed JSON, and all eight
operations return the nil value with the decode error. -/
theorem decode_error_returned_with_nil_witness :
    sampleEnv.Query 1 = (1, none) ∧
    (GetFlows sampleEnv 1).outcome = .returned .nil (some SampleErr.badJSON) ∧
    (GetInterfaceMetrics sampleEnv 1).outcome = .returned .nil (some SampleErr.badJSON) ∧
    (GetSFlowMetrics sampleEnv 1).outcome = .returned .nil (some SampleErr.badJSON) ∧
    (GetFlowMetrics sampleEnv 1).outcome = .returned .nil (some SampleErr.badJSON) ∧
    (GetFlowMetric sampleEnv 1).outcome = .returned none (some SampleErr.badJSON) ∧
    (GetInterfaceMetric sampleEnv 1).outcome = .returned none (some SampleErr.badJSON) ∧
    (GetSFlowMetric sampleEnv 1).outcome = .returned none (some SampleErr.badJSON) ∧
    (GetSockets sampleEnv 1).outcome = .returned .nil (some SampleErr.badJSON) :=
  ⟨rfl,
   (decode_error_returned_with_nil sampleEnv 1 1 rfl).1 _ _ rfl,
   (decode_error_returned_with_nil sampleEnv 1 1 rfl).2.1 _ _ rfl,
   (decode_error_returned_with_nil sampleEnv 1 1 rfl).2.2.1 _ _ rfl,
   (decode_error_returned_with_nil sampleEnv 1 1 rfl).2.2.2.1 _ _ rfl,
   (decode_error_returned_with_nil sampleEnv 1 1 rfl).2.2.2.2.1 _ _ rfl,
   (decode_error_returned_with_nil sampleEnv 1 1 rfl).2.2.2.2.2.1 _ _ rfl,
   (decode_error_returned_with_nil sampleEnv 1 1 rfl).2.2.2.2.2.2.1 _ _ rfl,
   (decode_error_returned_with_nil sampleEnv 1 1 rfl).2.2.2.2.2.2.2 _ _ rfl⟩

/-- C9: when the query succeeds and the payload decodes without error to the
array of flow records `fs`, `GetFlows` returns a nil error and a sequence of the
same length as `fs` with the same element at every index; the empty array
yields the empty sequence. -/
theorem GetFlows_roundtrip (g : Env Q B E Flow IM SM FM CI Obj) (query : Q)
    (data : B) (fs : Slice (Ptr Flow))
    (hq : g.Query query = (data, none))
    (hu : g.unmarshalFlows data = (fs, none)) :
    ∃ out, (GetFlows g query).outcome = .returned out none ∧
      out = fs ∧
      out.len = fs.len ∧
      (∀ i, out.index? i = fs.index? i) ∧
      (fs = Slice.mk [] → out = Slice.mk []) := by
  refine ⟨fs, ?_, rfl, rfl, fun _ => rfl, fun h => h⟩
  simp only [GetFlows, hq, hu]

/-- C9 at the sample environment: payload `3` is the flow list `[4, 5, 6]`, and
payload `2` is `[]`. -/
theorem GetFlows_roundtrip_witness :
    sampleEnv.unmarshalFlows 3 = (Slice.mk [some 4, some 5, some 6], none) ∧
    (∃ out, (GetFlows sampleEnv 3).outcome = .returned out none ∧
      out = Slice.mk [some 4, some 5, some 6] ∧
      out.len = (Slice.mk [some 4, some 5, some 6]).len ∧
      (∀ i, out.index? i = (Slice.mk [some 4, some 5, some 6]).index? i) ∧
      (Slice.mk [some 4, some 5, some 6] = Slice.mk [] → out = Slice.mk [])) ∧
    (GetFlows sampleEnv 2).outcome = .returned (Slice.mk []) none :=
  ⟨rfl, GetFlows_roundtrip sampleEnv 3 3 (Slice.mk [some 4, some 5, some 6]) rfl rfl, rfl⟩

/-- C5: when the query succeeds and the payload decodes without error to a
non-empty outer array whose first mapping is `first`, `GetSockets` returns a
non-nil mapping with exactly the keys of `first`; each key holds the items of
`first` at that key whose `Decode` returns a nil error, in their original order,
each as the pointer to its decoded record; a key whose items all fail holds the
empty sequence. -/
theorem GetSockets_keeps_decodable_items (g : Env Q B E Flow IM SM FM CI Obj) (query : Q)
    (data : B) (maps : Slice (GoMap (Slice Obj))) (first : GoMap (Slice Obj))
    (hq : g.Query query = (data, none))
    (hu : g.unmarshalSockets data = (maps, none))
    (h0 : maps.index? 0 = some first)
    (hwf : first.WF) :
    ∃ sockets err, (GetSockets g query).outcome = .returned sockets err ∧
      sockets ≠ GoMap.nil ∧
      (∀ k, k ∈ sockets.keys ↔ k ∈ first.keys) ∧
      (∀ k, sockets.get? k = (first.get? k).map (fun objs =>
        Slice.mk ((objs.toList.filter (fun obj => (g.Decode obj).2.isNone)).map
          (fun obj => some (g.Decode obj).1)))) ∧
      (∀ k objs, first.get? k = some objs →
        (∀ obj, obj ∈ objs.toList → (g.Decode obj).2 ≠ none) →
        sockets.get? k = some (Slice.mk [])) := by
  have hloop := socketsLoop_eq g first hwf none [Call.query query, Call.unmarshal data]
  have hget : ∀ k, GoMap.get? (GoMap.mk (first.entries.map
      (fun entry => (entry.1, Slice.mk (keptItems g entry.2.toList))))) k =
      (first.get? k).map (fun objs =>
        Slice.mk ((objs.toList.filter (fun obj => (g.Decode obj).2.isNone)).map
          (fun obj => some (g.Decode obj).1))) := by
    intro k
    exact GoMap.lookupEntries_map (fun objs => Slice.mk (keptItems g objs.toList)) k first.entries
  refine ⟨GoMap.mk (first.entries.map
      (fun entry => (entry.1, Slice.mk (keptItems g entry.2.toList)))),
    lastDecodeErr g none (allItems first.entries), ?_, ?_, ?_, hget, ?_⟩
  · simp only [GetSockets, hq, hu, h0, hloop]
  · intro hc
    cases hc
  · intro k
    simp [GoMap.keys, GoMap.entries]
  · intro k objs hk hall
    rw [hget, hk]
    have hnone : objs.toList.filter (fun obj => (g.Decode obj).2.isNone) = [] := by
      rw [List.filter_eq_nil_iff]
      intro obj hobj
      have := hall obj hobj
      cases hd : (g.Decode obj).2 with
      | none => exact absurd hd this
      | some e => simp
    simp [hnone]

/-- C5 at the sample environment: payload `3` is `[{"a": [1, 100, 2]}]` with
item `100` malformed; key `a` of the result holds exactly the two decoded
records. -/
theorem GetSockets_keeps_decodable_items_witness :
    sampleEnv.unmarshalSockets 3 = (Slice.mk [GoMap.mk [("a", Slice.mk [1, 100, 2])]], none) ∧
    ∃ sockets err, (GetSockets sampleEnv 3).outcome = .returned sockets err ∧
      sockets.get? "a" = some (Slice.mk [some 1, some 2]) ∧
      (sockets.get? "a").map Slice.len = some 2 := by
  obtain ⟨sockets, err, hout, _, _, hget, _⟩ :=
    GetSockets_keeps_decodable_items sampleEnv 3 3
      (Slice.mk [GoMap.mk [("a", Slice.mk [1, 100, 2])]])
      (GoMap.mk [("a", Slice.mk [1, 100, 2])]) rfl rfl rfl (by decide)
  refine ⟨rfl, sockets, err, hout, ?_, ?_⟩
  · rw [hget]
    decide
  · rw [hget]
    decide

/-- C4: payload `5` is `[{"a": [1, 100]}]`, whose last item is malformed. The
query and the structural decode succeed, the good item is kept, and `GetSockets`
returns the error of the malformed item instead of a nil error. -/
theorem GetSockets_leaks_last_item_error :
    sampleEnv.Query 5 = (5, none) ∧
    sampleEnv.unmarshalSockets 5 = (Slice.mk [GoMap.mk [("a", Slice.mk [1, 100])]], none) ∧
    (GetSockets sampleEnv 5).outcome =
      .returned (GoMap.mk [("a", Slice.mk [some 1])]) (some SampleErr.badItem) := by
  decide

/-- C6: payload `2` is `[]` and payload `8` is `null`. The query and the
structural decode succeed with an outer array of length zero, and `GetSockets`
reads its first element without a length check: the call panics with index out
of range, where `GetInterfaceMetrics` on the same payloads returns. -/
theorem GetSockets_empty_outer_array_panics :
    sampleEnv.Query 2 = (2, none) ∧
    sampleEnv.unmarshalSockets 2 = (Slice.mk [], none) ∧
    (GetSockets sampleEnv 2).outcome = .panicked (.indexOutOfRange 0 0) ∧
    (GetInterfaceMetrics sampleEnv 2).outcome = .returned .nil none ∧
    sampleEnv.Query 8 = (8, none) ∧
    sampleEnv.unmarshalSockets 8 = (Slice.nil, none) ∧
    (GetSockets sampleEnv 8).outcome = .panicked (.indexOutOfRange 0 0) ∧
    (GetInterfaceMetrics sampleEnv 8).outcome = .returned .nil none := by
  decide

/-- C8 as the code has it: when the query succeeds and the payload decodes
without error to an outer array `first :: rest`, whatever `rest` holds,
`GetInterfaceMetrics`, `GetSFlowMetrics` and `GetFlowMetrics` return `first`
with a nil error, and `GetSockets` answers from `first` alone: its mapping is
non-nil and holds at each key of `first` the decoded records of the items whose
`Decode` succeeds, its error is the error of the last `Decode` call over the
items of `first` (nil when `first` holds no item), and the only `Decode` calls
it makes are on the items of `first`. No element of `rest` causes an error. -/
theorem outer_array_only_first_mapping_used (g : Env Q B E Flow IM SM FM CI Obj) (query : Q)
    (data : B) (hq : g.Query query = (data, none)) :
    (∀ first rest, g.unmarshalInterfaceMetrics data = (Slice.mk (first :: rest), none) →
      (GetInterfaceMetrics g query).outcome = .returned first none) ∧
    (∀ first rest, g.unmarshalSFlowMetrics data = (Slice.mk (first :: rest), none) →
      (GetSFlowMetrics g query).outcome = .returned first none) ∧
    (∀ first rest, g.unmarshalFlowMetrics data = (Slice.mk (first :: rest), none) →
      (GetFlowMetrics g query).outcome = .returned first none) ∧
    (∀ first rest, g.unmarshalSockets data = (Slice.mk (first :: rest), none) → first.WF →
      ∃ sockets, (GetSockets g query).outcome =
          .returned sockets (lastDecodeErr g none (allItems first.entries)) ∧
        sockets ≠ GoMap.nil ∧
        (∀ k, sockets.get? k = (first.get? k).map (fun objs =>
          Slice.mk ((objs.toList.filter (fun obj => (g.Decode obj).2.isNone)).map
            (fun obj => some (g.Decode obj).1)))) ∧
        (GetSockets g query).calls =
          [Call.query query, Call.unmarshal data] ++
            (allItems first.entries).map Call.decode) := by
  refine ⟨?_, ?_, ?_, ?_⟩
  · intro first rest hu
    simp [GetInterfaceMetrics, hq, hu, Slice.len, Slice.index?, Slice.toList]
  · intro first rest hu
    simp [GetSFlowMetrics, hq, hu, Slice.len, Slice.index?, Slice.toList]
  · intro first rest hu
    simp [GetFlowMetrics, hq, hu, Slice.len, Slice.index?, Slice.toList]
  · intro first rest hu hwf
    have hloop := socketsLoop_eq g first hwf none [Call.query query, Call.unmarshal data]
    refine ⟨GoMap.mk (first.entries.map
        (fun entry => (entry.1, Slice.mk (keptItems g entry.2.toList)))), ?_, ?_, ?_, ?_⟩
    · simp [GetSockets, hq, hu, hloop, Slice.index?, Slice.toList]
    · intro hc
      cases hc
    · intro k
      exact GoMap.lookupEntries_map (fun objs => Slice.mk (keptItems g objs.toList)) k
        first.entries
    · simp [GetSockets, hq, hu, hloop, Slice.index?, Slice.toList]

/-- C8 at the sample environment: payload `4` is `[{"a": [1]}, {"b": [2]}]`;
the operations answer from `{"a": [1]}` with a nil error, and `GetSockets`
decodes item `1` only. -/
theorem outer_array_only_first_mapping_used_witness :
    sampleEnv.Query 4 = (4, none) ∧
    (GetInterfaceMetrics sampleEnv 4).outcome =
      .returned (GoMap.mk [("a", Slice.mk [some 1])]) none ∧
    (GetSFlowMetrics sampleEnv 4).outcome =
      .returned (GoMap.mk [("a", Slice.mk [some 1])]) none ∧
    (GetFlowMetrics sampleEnv 4).outcome =
      .returned (GoMap.mk [("a", Slice.mk [some 1])]) none ∧
    ∃ sockets, (GetSockets sampleEnv 4).outcome = .returned sockets none ∧
      sockets ≠ GoMap.nil ∧
      sockets.get? "a" = some (Slice.mk [some 1]) ∧ sockets.get? "b" = none ∧
      (GetSockets sampleEnv 4).calls = [Call.query 4, Call.unmarshal 4, Call.decode 1] := by
  have h := outer_array_only_first_mapping_used sampleEnv 4 4 rfl
  obtain ⟨sockets, hout, hnil, hget, hcalls⟩ :=
    h.2.2.2 (GoMap.mk [("a", Slice.mk [1])]) [GoMap.mk [("b", Slice.mk [2])]] rfl (by decide)
  refine ⟨rfl, h.1 _ [GoMap.mk [("b", Slice.mk [some 2])]] rfl,
    h.2.1 _ [GoMap.mk [("b", Slice.mk [some 2])]] rfl,
    h.2.2.1 _ [GoMap.mk [("b", Slice.mk [some 2])]] rfl, sockets, hout, hnil, ?_, ?_, hcalls⟩
  · rw [hget]
    decide
  · rw [hget]
    decide

/-- C8 as stated fails: payload `4` decodes without error to an outer array of
two mappings, and none of the four mapping-producing operations returns an
error; each answers from the first mapping. -/
theorem two_mappings_are_not_a_decode_error :
    sampleEnv.Query 4 = (4, none) ∧
    sampleEnv.unmarshalInterfaceMetrics 4 =
      (Slice.mk [GoMap.mk [("a", Slice.mk [some 1])], GoMap.mk [("b", Slice.mk [some 2])]],
        none) ∧
    sampleEnv.unmarshalSockets 4 =
      (Slice.mk [GoMap.mk [("a", Slice.mk [1])], GoMap.mk [("b", Slice.mk [2])]], none) ∧
    (GetInterfaceMetrics sampleEnv 4).outcome =
      .returned (GoMap.mk [("a", Slice.mk [some 1])]) none ∧
    (GetSFlowMetrics sampleEnv 4).outcome =
      .returned (GoMap.mk [("a", Slice.mk [some 1])]) none ∧
    (GetFlowMetrics sampleEnv 4).outcome =
      .returned (GoMap.mk [("a", Slice.mk [some 1])]) none ∧
    (GetSockets sampleEnv 4).outcome =
      .returned (GoMap.mk [("a", Slice.mk [some 1])]) none := by
  decide

/-- C10: payloads `6` and `7` decode to the same first mapping
`{"a": [100], "b": [1]}`, ranged over in the two possible key orders. The
returned mappings hold the same entries, but the returned errors differ: nil
when key `b` is visited last, the error of item `100` when key `a` is. -/
theorem GetSockets_error_depends_on_key_order :
    sampleEnv.unmarshalSockets 6 =
      (Slice.mk [GoMap.mk [("a", Slice.mk [100]), ("b", Slice.mk [1])]], none) ∧
    sampleEnv.unmarshalSockets 7 =
      (Slice.mk [GoMap.mk [("b", Slice.mk [1]), ("a", Slice.mk [100])]], none) ∧
    List.Perm [("a", Slice.mk [100]), ("b", Slice.mk [1])]
      [("b", Slice.mk [1]), ("a", Slice.mk [100])] ∧
    (GetSockets sampleEnv 6).outcome =
      .returned (GoMap.mk [("a", Slice.mk []), ("b", Slice.mk [some 1])]) none ∧
    (GetSockets sampleEnv 7).outcome =
      .returned (GoMap.mk [("b", Slice.mk [some 1]), ("a", Slice.mk [])])
        (some SampleErr.badItem) ∧
    (GetSockets sampleEnv 6).outcome ≠ (GetSockets sampleEnv 7).outcome := by
  decide

/-- X1: the error `GetSockets` returns after its loops is the error of the last
`Decode` call made, over all keys in visiting order: nil when the first mapping
holds no item at all, and otherwise whatever `Decode` returned for the item
visited last. -/
theorem GetSockets_error_is_last_decode_error (g : Env Q B E Flow IM SM FM CI Obj) (query : Q)
    (data : B) (maps : Slice (GoMap (Slice Obj))) (first : GoMap (Slice Obj))
    (hq : g.Query query = (data, none))
    (hu : g.unmarshalSockets data = (maps, none))
    (h0 : maps.index? 0 = some first)
    (hwf : first.WF) :
    ∃ sockets, (GetSockets g query).outcome = .returned sockets
      (match (allItems first.entries).getLast? with
       | none => none
       | some obj => (g.Decode obj).2) := by
  have hloop := socketsLoop_eq g first hwf none [Call.query query, Call.unmarshal data]
  refine ⟨GoMap.mk (first.entries.map
      (fun entry => (entry.1, Slice.mk (keptItems g entry.2.toList)))), ?_⟩
  simp only [GetSockets, hq, hu, h0, hloop, lastDecodeErr_eq_getLast]

/-- X1 at the sample environment: in payload `5` the last item
visited is the malformed `100`, and its error is what comes back. -/
theorem GetSockets_error_is_last_decode_error_witness :
    ∃ sockets, (GetSockets sampleEnv 5).outcome = .returned sockets (some SampleErr.badItem) :=
  GetSockets_error_is_last_decode_error sampleEnv 5 5
    (Slice.mk [GoMap.mk [("a", Slice.mk [1, 100])]])
    (GoMap.mk [("a", Slice.mk [1, 100])]) rfl rfl rfl (by decide)

/-- X2: the mapping `GetSockets` returns does not depend on the order in which the
keys of the first mapping are visited: two runs whose first mappings hold the
same entries in different orders return mappings that agree at every key. -/
theorem GetSockets_mapping_order_independent (g : Env Q B E Flow IM SM FM CI Obj)
    (query₁ query₂ : Q) (data₁ data₂ : B) (maps₁ maps₂ : Slice (GoMap (Slice Obj)))
    (first₁ first₂ : GoMap (Slice Obj))
    (hq₁ : g.Query query₁ = (data₁, none)) (hu₁ : g.unmarshalSockets data₁ = (maps₁, none))
    (h₁ : maps₁.index? 0 = some first₁)
    (hq₂ : g.Query query₂ = (data₂, none)) (hu₂ : g.unmarshalSockets data₂ = (maps₂, none))
    (h₂ : maps₂.index? 0 = some first₂)
    (hwf : first₁.WF) (hperm : first₁.entries.Perm first₂.entries) :
    ∃ sockets₁ err₁ sockets₂ err₂,
      (GetSockets g query₁).outcome = .returned sockets₁ err₁ ∧
      (GetSockets g query₂).outcome = .returned sockets₂ err₂ ∧
      ∀ k, sockets₁.get? k = sockets₂.get? k := by
  have hwf₂ : first₂.WF := (List.Perm.nodup_iff (List.Perm.map Prod.fst hperm)).mp hwf
  have hl₁ := socketsLoop_eq g first₁ hwf none [Call.query query₁, Call.unmarshal data₁]
  have hl₂ := socketsLoop_eq g first₂ hwf₂ none [Call.query query₂, Call.unmarshal data₂]
  refine ⟨GoMap.mk (first₁.entries.map
      (fun entry => (entry.1, Slice.mk (keptItems g entry.2.toList)))),
    lastDecodeErr g none (allItems first₁.entries),
    GoMap.mk (first₂.entries.map
      (fun entry => (entry.1, Slice.mk (keptItems g entry.2.toList)))),
    lastDecodeErr g none (allItems first₂.entries), ?_, ?_, ?_⟩
  · simp only [GetSockets, hq₁, hu₁, h₁, hl₁]
  · simp only [GetSockets, hq₂, hu₂, h₂, hl₂]
  · intro k
    have e₁ := GoMap.lookupEntries_map (fun objs => Slice.mk (keptItems g objs.toList)) k
      first₁.entries
    have e₂ := GoMap.lookupEntries_map (fun objs => Slice.mk (keptItems g objs.toList)) k
      first₂.entries
    exact (e₁.trans (congrArg _ (GoMap.lookupEntries_perm k hperm hwf))).trans e₂.symm

/-- X2 at the sample environment: payloads `6`
and `7` differ only in visiting order, and the two results agree at every
key. -/
theorem GetSockets_mapping_order_independent_witness :
    ∃ sockets₁ err₁ sockets₂ err₂,
      (GetSockets sampleEnv 6).outcome = .returned sockets₁ err₁ ∧
      (GetSockets sampleEnv 7).outcome = .returned sockets₂ err₂ ∧
      ∀ k, sockets₁.get? k = sockets₂.get? k :=
  GetSockets_mapping_order_independent sampleEnv 6 7 6 7
    (Slice.mk [GoMap.mk [("a", Slice.mk [100]), ("b", Slice.mk [1])]])
    (Slice.mk [GoMap.mk [("b", Slice.mk [1]), ("a", Slice.mk [100])]])
    (GoMap.mk [("a", Slice.mk [100]), ("b", Slice.mk [1])])
    (GoMap.mk [("b", Slice.mk [1]), ("a", Slice.mk [100])])
    rfl rfl rfl rfl rfl rfl (by decide) (by decide)

/-- X3: on a payload that decodes to a non-empty outer array, `GetSockets` calls
the query once, `json.Unmarshal` once, and then `Decode` exactly once per item
of the first mapping, key by key in visiting order and item by item within a
key. -/
theorem GetSockets_decodes_every_item_once (g : Env Q B E Flow IM SM FM CI Obj) (query : Q)
    (data : B) (maps : Slice (GoMap (Slice Obj))) (first : GoMap (Slice Obj))
    (hq : g.Query query = (data, none))
    (hu : g.unmarshalSockets data = (maps, none))
    (h0 : maps.index? 0 = some first)
    (hwf : first.WF) :
    (GetSockets g query).calls =
      [Call.query query, Call.unmarshal data] ++
        (first.entries.flatMap (fun entry => entry.2.toList)).map Call.decode := by
  have hloop := socketsLoop_eq g first hwf none [Call.query query, Call.unmarshal data]
  simp only [GetSockets, hq, hu, h0, hloop, allItems]

/-- X3 at the sample environment: payload `3` is `[{"a": [1, 100, 2]}]`. -/
theorem GetSockets_decodes_every_item_once_witness :
    (GetSockets sampleEnv 3).calls =
      [Call.query 3, Call.unmarshal 3, Call.decode 1, Call.decode 100, Call.decode 2] :=
  GetSockets_decodes_every_item_once sampleEnv 3 3
    (Slice.mk [GoMap.mk [("a", Slice.mk [1, 100, 2])]])
    (GoMap.mk [("a", Slice.mk [1, 100, 2])]) rfl rfl rfl (by decide)

/-- X4: when the query succeeds and `json.Unmarshal` of the payload returns a
nil error, each single-record operation returns a non-nil pointer to the record
`json.Unmarshal` left in the target, with a nil error. -/
theorem single_record_returns_decoded_value (g : Env Q B E Flow IM SM FM CI Obj) (query : Q)
    (data : B) (hq : g.Query query = (data, none)) :
    (∀ result, g.unmarshalFlowMetric data = (result, none) →
      (GetFlowMetric g query).outcome = .returned (some result) none) ∧
    (∀ result, g.unmarshalInterfaceMetric data = (result, none) →
      (GetInterfaceMetric g query).outcome = .returned (some result) none) ∧
    (∀ result, g.unmarshalSFlowMetric data = (result, none) →
      (GetSFlowMetric g query).outcome = .returned (some result) none) := by
  refine ⟨?_, ?_, ?_⟩ <;> intro result hu
  · simp only [GetFlowMetric, hq, hu]
  · simp only [GetInterfaceMetric, hq, hu]
  · simp only [GetSFlowMetric, hq, hu]

/-- X4 at the sample environment: payload `9` decodes to the record `9`. -/
theorem single_record_returns_decoded_value_witness :
    (GetFlowMetric sampleEnv 9).outcome = .returned (some 9) none ∧
    (GetInterfaceMetric sampleEnv 9).outcome = .returned (some 9) none ∧
    (GetSFlowMetric sampleEnv 9).outcome = .returned (some 9) none :=
  ⟨(single_record_returns_decoded_value sampleEnv 9 9 rfl).1 9 rfl,
   (single_record_returns_decoded_value sampleEnv 9 9 rfl).2.1 9 rfl,
   (single_record_returns_decoded_value sampleEnv 9 9 rfl).2.2 9 rfl⟩

/-- X5: whenever the query succeeds and the payload decodes without error to an
outer array of length zero (`[]` or `null`), `GetSockets` panics with index out
of range at `maps[0]`, having made no `Decode` call. -/
theorem GetSockets_panics_on_every_empty_outer_array (g : Env Q B E Flow IM SM FM CI Obj)
    (query : Q) (data : B) (maps : Slice (GoMap (Slice Obj)))
    (hq : g.Query query = (data, none))
    (hu : g.unmarshalSockets data = (maps, none))
    (hlen : maps.len = 0) :
    GetSockets g query =
      ⟨.panicked (.indexOutOfRange 0 0), [Call.query query, Call.unmarshal data]⟩ := by
  have hnil : maps.toList = [] := List.length_eq_zero.mp hlen
  have h0 : maps.index? 0 = none := by
    simp [Slice.index?, hnil]
  simp only [GetSockets, hq, hu, h0, hlen]

/-- X5 at the sample environment: payload `8` is `null`. -/
theorem GetSockets_panics_on_every_empty_outer_array_witness :
    sampleEnv.unmarshalSockets 8 = (Slice.nil, none) ∧
    GetSockets sampleEnv 8 =
      ⟨.panicked (.indexOutOfRange 0 0), [Call.query 8, Call.unmarshal 8]⟩ :=
  ⟨rfl, GetSockets_panics_on_every_empty_outer_array sampleEnv 8 8 Slice.nil rfl rfl rfl⟩

end Theorems

end Skydive
